import Mathlib

/-!
Verification of the TagScript glue layer of the Seina-Cogs repository
(`boostutils/_tagscript.py`, `tags/mixins/commands.py`,
`applications/pipes/listeners.py`) against its natural-language
specification.  Python code is shallowly embedded: strings are Lean
`String`s (Python slicing and `len` are character based, as in Lean),
Python dicts that cross the boundary are association lists, and Python
truthiness / short-circuiting are made explicit.
-/

/-- The block-start marker character of the templating dialect. -/
def lbrace : Char := Char.ofNat 123

/-- The block-end marker character of the templating dialect. -/
def rbrace : Char := Char.ofNat 125

/-- An adapter, per the spec interface `resolve(parameter: string|absent) -> string`. -/
abbrev Adapter := Option String → String

/-- Association-list lookup with string keys, mirroring Python `dict.get`. -/
def lookupStr {α : Type} (k : String) : List (String × α) → Option α
  | [] => none
  | (k', v) :: rest => if k' = k then some v else lookupStr k rest

/-- Evaluation state of one `process` call: the call-scoped adapter
bindings (seed variables plus any created by the assignment block), the
accumulated action mapping, and the names of variables referenced so far. -/
structure EvalSt where
  adapters : List (String × Adapter)
  actions : List (String × String)
  vars : List String

/-- Result of one `process` call: text body, action mapping (action values
are kept opaque as strings), and the referenced-variable names. -/
structure Response where
  body : String
  actions : List (String × String)
  vars : List String
deriving DecidableEq

/-- Set an action entry with last-write-wins semantics. -/
def setAction (st : EvalSt) (k v : String) : EvalSt :=
  { st with actions := (st.actions.filter (fun p => p.1 ≠ k)) ++ [(k, v)] }

/-- Find the block-end marker matching an already-consumed block-start
marker, balancing nested markers; returns the enclosed span and the rest. -/
def findClose : Nat → List Char → Option (List Char × List Char)
  | _, [] => none
  | d, c :: rest =>
    if c = rbrace then
      if d = 0 then some ([], rest)
      else (findClose (d - 1) rest).map (fun p => (c :: p.1, p.2))
    else if c = lbrace then
      (findClose (d + 1) rest).map (fun p => (c :: p.1, p.2))
    else
      (findClose d rest).map (fun p => (c :: p.1, p.2))

/-- Find the closing parenthesis of a parameter segment, balancing nested
parentheses; returns the enclosed span and the rest. -/
def findCloseParen : Nat → List Char → Option (List Char × List Char)
  | _, [] => none
  | d, c :: rest =>
    if c = ')' then
      if d = 0 then some ([], rest)
      else (findCloseParen (d - 1) rest).map (fun p => (c :: p.1, p.2))
    else if c = '(' then
      (findCloseParen (d + 1) rest).map (fun p => (c :: p.1, p.2))
    else
      (findCloseParen d rest).map (fun p => (c :: p.1, p.2))

/-- Take the block name: the characters up to the first parameter or
payload delimiter. -/
def takeName : List Char → List Char × List Char
  | [] => ([], [])
  | c :: rest =>
    if c = '(' ∨ c = ':' then ([], c :: rest)
    else
      let (n, r) := takeName rest
      (c :: n, r)

/-- Split the inside of a block expression into its name, optional
`(parameter)` span and optional `:payload` span, per the spec grammar. -/
def splitDecl (inside : List Char) : List Char × Option (List Char) × Option (List Char) :=
  let (name, rest) := takeName inside
  match rest with
  | [] => (name, none, none)
  | c :: rest' =>
    if c = ':' then (name, none, some rest')
    else
      match findCloseParen 0 rest' with
      | none => (name, none, none)
      | some (param, rest'') =>
        match rest'' with
        | ':' :: payload => (name, some param, some payload)
        | _ => (name, some param, none)

/-- Lower-case a block name character-wise (case-insensitive matching). -/
def lowerName (cs : List Char) : String := String.mk (cs.map Char.toLower)

/-- Whether a name is handled by the modelled built-in block registry or
by a bound adapter (block names are matched case-insensitively). -/
def knownName (st : EvalSt) (name : String) : Bool :=
  (lookupStr name st.adapters).isSome || name = "assign" || name = "command" || name = "embed"

mutual

/-- Modelled from the spec: the evaluator walk of `engine.process` from the
external TagScriptEngine library (not under src/).  Scans the character
stream left to right; literal characters are emitted verbatim; a
block-start marker opens a block expression which is evaluated if its end
marker is found, and which degrades to literal text when unterminated.
`fuel` realises the spec's bounded-recursion guard: when exhausted the
remaining span renders as literal text. -/
def scan : Nat → EvalSt → List Char → List Char × EvalSt
  | 0, st, cs => (cs, st)
  | _ + 1, st, [] => ([], st)
  | fuel + 1, st, c :: rest =>
    if c = lbrace then
      match findClose 0 rest with
      | none => (c :: rest, st)
      | some (inside, rest') =>
        let (out, st') := evalBlock fuel st inside
        let (out2, st'') := scan fuel st' rest'
        (out ++ out2, st'')
    else
      let (out, st') := scan fuel st rest
      (c :: out, st')

/-- Modelled from the spec: execution of one block expression of
`engine.process` (external TagScriptEngine library, not under src/).
An unknown name reproduces the original bracketed expression unchanged;
a known block first resolves its parameter and payload spans recursively
(eager, inner before outer), then either substitutes an adapter value,
binds a new adapter (assignment block), or records an action (command and
embed blocks, last write wins, embed accumulating). -/
def evalBlock : Nat → EvalSt → List Char → List Char × EvalSt
  | 0, st, inside => (lbrace :: (inside ++ [rbrace]), st)
  | fuel + 1, st, inside =>
    let (nameCs, paramSpan, payloadSpan) := splitDecl inside
    let name := lowerName nameCs
    if knownName st name then
      let (param?, st1) :=
        match paramSpan with
        | none => (none, st)
        | some p =>
          let (o, s) := scan fuel st p
          (some (String.mk o), s)
      let (payload?, st2) :=
        match payloadSpan with
        | none => ((none : Option String), st1)
        | some p =>
          let (o, s) := scan fuel st1 p
          (some (String.mk o), s)
      match lookupStr name st2.adapters with
      | some ad => ((ad param?).data, { st2 with vars := st2.vars ++ [name] })
      | none =>
        if name = "assign" then
          match param?, payload? with
          | some v, some val => ([], { st2 with adapters := (v, fun _ => val) :: st2.adapters })
          | _, _ => (lbrace :: (inside ++ [rbrace]), st2)
        else if name = "command" then
          match payload? with
          | some cmd => ([], setAction st2 "command" cmd)
          | none => (lbrace :: (inside ++ [rbrace]), st2)
        else
          ([], setAction st2 "embed"
            (((lookupStr "embed" st2.actions).getD "") ++ (param?.getD "") ++ "=" ++ (payload?.getD "")))
    else
      (lbrace :: (inside ++ [rbrace]), st)

end

/-- Modelled from the spec: `engine.process(content, seed_variables)` of the
external TagScriptEngine library (not under src/).  Per the spec it is a
pure total function of the template string and the seed adapters, returning
a `Response` (body, actions, referenced variables); it never fails. -/
def engineProcess (content : String) (seed : List (String × Adapter)) : Response :=
  let (out, st) := scan (content.length + 1) ⟨seed, [], []⟩ content.data
  ⟨String.mk out, st.actions, st.vars⟩

/-- Python truthiness of a string: nonempty. -/
def pyTruthyStr (s : String) : Bool := !(s == "")

/-- Python character slicing `s[:n]`. -/
def pySlice (s : String) (n : Nat) : String := String.mk (s.data.take n)

/-- Function `process_tagscript` from `boostutils/_tagscript.py`, split into the pure
kwargs construction from the engine's `Response`: adds `content` (truncated
to 2000 characters) when the body is truthy, and `embed` when the `embed`
action is present and truthy. -/
def kwargsOf (output : Response) : List (String × String) :=
  let kw : List (String × String) := []
  let kw := if pyTruthyStr output.body then kw ++ [("content", pySlice output.body 2000)] else kw
  match lookupStr "embed" output.actions with
  | some v => if pyTruthyStr v then kw ++ [("embed", v)] else kw
  | none => kw

/-- Function `process_tagscript(content, seed_variables)` from
`boostutils/_tagscript.py`. -/
def process_tagscript (content : String) (seed : List (String × Adapter)) :
    List (String × String) :=
  kwargsOf (engineProcess content seed)

/-- The `content = output.body[:2000] if output.body else None` computation
of `tag_run` in `tags/mixins/commands.py`. -/
def tagRunContent (output : Response) : Option String :=
  if pyTruthyStr output.body then some (pySlice output.body 2000) else none

/-- Constant `TAGSCRIPT_LIMIT` from `boostutils/_tagscript.py`. -/
def TAGSCRIPT_LIMIT : Nat := 10000

/-- Group a reversed digit list into threes, inserting comma separators. -/
def groupThrees : List Char → List Char
  | a :: b :: c :: d :: rest => a :: b :: c :: ',' :: groupThrees (d :: rest)
  | l => l

/-- Modelled from the spec: `humanize_number` from the host bot framework
(not under src/), which renders a number with comma thousands separators
in the default locale. -/
def humanize_number (n : Nat) : String :=
  String.mk (groupThrees (toString n).data.reverse).reverse

/-- A raised `TagError` (`boostutils/_tagscript.py`), carried as the string
`str(e)` renders it to. -/
structure TagErr where
  msg : String
deriving DecidableEq

/-- The message built by `TagCharacterLimitReached.__init__(limit, length)`
in `boostutils/_tagscript.py`. -/
def TagCharacterLimitReached_message (limit length : Nat) : String :=
  "TagScript cannot be longer than " ++ humanize_number limit ++
    " (**" ++ humanize_number length ++ "**)."

/-- Modelled from the spec: the cog's `validate_tagscript` (repository code
not under src/), which per the spec raises the named validation error,
with the limit and actual length embedded, when the template exceeds the
source length limit, and otherwise accepts. -/
def validate_tagscript (argument : String) : Option TagErr :=
  if argument.length > TAGSCRIPT_LIMIT then
    some ⟨TagCharacterLimitReached_message TAGSCRIPT_LIMIT argument.length⟩
  else none

/-- Outcome of `TagscriptConverter.convert`: either the returned string or
a raised `commands.BadArgument` with its message. -/
inductive ConvertResult where
  | ok (s : String)
  | badArgument (msg : String)
deriving DecidableEq

/-- Method `TagscriptConverter.convert` from `boostutils/_tagscript.py`,
parametrised by the outcome of the cog's validation call (`none` when
`validate_tagscript` raises no `TagError`, `some e` when it raises `e`):
on success the argument is returned unchanged, on a `TagError` a
`commands.BadArgument` carrying `str(e)` is raised. -/
def TagscriptConverter_convert (validation : String → Option TagErr) (argument : String) :
    ConvertResult :=
  match validation argument with
  | none => .ok argument
  | some e => .badArgument e.msg

/-- A Python `Optional[bool]` value. -/
inductive PyVal where
  | pynone
  | pybool (b : Bool)
deriving DecidableEq

/-- Python truthiness of an `Optional[bool]`. -/
def pyTruthy : PyVal → Bool
  | .pynone => false
  | .pybool b => b

/-- Python `a or b`: the left operand when truthy, otherwise the right. -/
def pyOr (a b : PyVal) : PyVal := if pyTruthy a then a else b

/-- Python `x is True` for an `Optional[bool]`. -/
def pyIsTrue : PyVal → Bool
  | .pybool true => true
  | .pynone => false
  | .pybool false => false

/-- The `response = response or True` assignment at the top of `invoketag`
in `tags/mixins/commands.py`. -/
def invoketag_effective_response (response : PyVal) : PyVal :=
  pyOr response (.pybool true)

/-- Whether the `except commands.BadArgument` branch of `invoketag` sends
the error message: it does so exactly when `response is True` after the
`response = response or True` assignment. -/
def invoketag_sends_bad_argument (response : PyVal) : Bool :=
  pyIsTrue (invoketag_effective_response response)

/-- A stored tag as consumed by `generate_tag_list`: its `str()` rendering,
its aliases and its tagscript source. -/
structure TagModel where
  display : String
  aliases : List String
  tagscript : String

/-- Python `s.replace(chr(10), chr(32))`: every newline becomes a space. -/
def newlineToSpace (s : String) : String :=
  String.mk (s.data.map (fun c => if c = '\n' then ' ' else c))

/-- The per-tag description entry built inside the `generate_tag_list` loop
in `tags/mixins/commands.py`, parametric in the platform's
`escape_markdown` (external library code): newline replacement, then
truncation of previews longer than 23 characters to the first 20
characters plus an ellipsis, then markdown escaping. -/
def tagListEntry (escape : String → String) (t : TagModel) : String :=
  let tagscript := newlineToSpace t.tagscript
  let tagscript :=
    if tagscript.length > 23 then pySlice tagscript 20 ++ "..." else tagscript
  let tagscript := escape tagscript
  "`" ++ t.display ++ "` - " ++ tagscript

/-- The accumulator loop of `generate_tag_list` in
`tags/mixins/commands.py`: extends the alias list with each tag's aliases
and appends each tag's description entry, in input order. -/
def generateTagListAux (escape : String → String) :
    List TagModel → List String → List String → List String × List String
  | [], aliases, description => (aliases, description)
  | t :: rest, aliases, description =>
    generateTagListAux escape rest (aliases ++ t.aliases) (description ++ [tagListEntry escape t])

/-- Function `generate_tag_list(tags)` from `tags/mixins/commands.py`, returning the
`aliases` and `description` lists. -/
def generate_tag_list (escape : String → String) (tags : List TagModel) :
    List String × List String :=
  generateTagListAux escape tags [] []

/-- One collected answer of the applications DM flow
(`applications/common/models.Answer` as appended by the listener). -/
structure AnswerModel where
  question : String
  type : String
  answer : String
deriving DecidableEq

/-- What the caller-side wait for the user's reply in the text-question
branch of `on_application_applied` produced: either the 300-second timeout
fired, or a reply message arrived with the cancel/skip view state and the
message content. -/
inductive TextWaitOutcome where
  | timedOut
  | received (cancel skip : Bool) (content : String)
deriving DecidableEq

/-- How one text-question iteration of `on_application_applied` ends:
either the handler returns after sending the given follow-up message, or
the loop continues to the next question. -/
inductive TextStepResult where
  | terminate (followup : String)
  | continueLoop
deriving DecidableEq

/-- The caller-side timeout, in seconds, passed to `wait_for` in the
text-question branch of `on_application_applied`
(`applications/pipes/listeners.py`); the float literal `300.0` is the
exact integer 300. -/
def text_question_timeout_seconds : Nat := 300

/-- The text-question branch of one loop iteration of
`on_application_applied` (`applications/pipes/listeners.py`) as a
transition on the in-progress answer list: on timeout the handler returns
with the \"Application timed out.\" follow-up without touching the
answers; otherwise cancel, skip, nonempty content and empty content are
handled in that order, appending an `Answer` exactly on the skip and
nonempty-content paths. -/
def textQuestionStep (questionText : String) (answers : List AnswerModel)
    (w : TextWaitOutcome) : List AnswerModel × TextStepResult :=
  match w with
  | .timedOut => (answers, .terminate "Application timed out.")
  | .received cancel skip content =>
    if cancel then (answers, .terminate "Application cancelled!")
    else if skip then
      (answers ++ [⟨questionText, "text", "Skipped"⟩], .continueLoop)
    else if pyTruthyStr content then
      (answers ++ [⟨questionText, "text", content⟩], .continueLoop)
    else (answers, .terminate "Application failed, try again later.")

/-- Outcome of evaluating the backup-file precondition at the top of
`tag_restore` / `tag_global_restore`: proceed with the restore, raise
`UserFeedbackCheckFailure`, or raise `IndexError` while evaluating the
condition itself. -/
inductive RestoreCheck where
  | proceed
  | userFeedbackCheckFailure (msg : String)
  | indexError
deriving DecidableEq

/-- The `if not msg.attachments and not msg.attachments[0].filename == expected`
precondition shared by `tag_restore` and `tag_global_restore`
(`tags/mixins/commands.py`), over the list of attachment filenames, with
Python short-circuit evaluation made explicit: when the attachment list is
nonempty the left conjunct is false and the whole condition is false, so
the restore proceeds; when it is empty the right conjunct indexes an empty
list and raises `IndexError`. -/
def restoreAttachmentCheck (filenames : List String) (expected : String) : RestoreCheck :=
  if filenames.isEmpty then
    match filenames[0]? with
    | none => .indexError
    | some f =>
      if !(f == expected) then
        .userFeedbackCheckFailure "You must pass a message that has a backup file attachment sent by me."
      else .proceed
  else .proceed

/-! Theorems about the embedded definitions. -/

theorem string_mk_data (s : String) : String.mk s.data = s := by
  cases s
  rfl

theorem string_length_mk (l : List Char) : (String.mk l).length = l.length := rfl

/-- On a character stream with no block-start marker, the evaluator walk is
the identity on the stream and touches no state, given enough fuel. -/
theorem scan_noBrace (cs : List Char) :
    ∀ fuel st, (∀ c ∈ cs, c ≠ lbrace) → cs.length ≤ fuel → scan fuel st cs = (cs, st) := by
  induction cs with
  | nil =>
    intro fuel st _ _
    cases fuel <;> simp [scan]
  | cons c rest ih =>
    intro fuel st hnb hlen
    cases fuel with
    | zero => simp at hlen
    | succ n =>
      have hc : c ≠ lbrace := hnb c (List.mem_cons_self c rest)
      have hrest : ∀ c' ∈ rest, c' ≠ lbrace := fun c' h => hnb c' (List.mem_cons_of_mem c h)
      have hlen' : rest.length ≤ n := by
        simp only [List.length_cons] at hlen
        omega
      simp [scan, hc, ih n st hrest hlen']

/-- Every key of the kwargs mapping built by `process_tagscript` is
`content` or `embed`. -/
theorem kwargsOf_keys (output : Response) :
    ∀ p ∈ kwargsOf output, p.1 = "content" ∨ p.1 = "embed" := by
  intro p hp
  unfold kwargsOf at hp
  rcases hE : lookupStr "embed" output.actions with _ | v <;>
      rcases hB : pyTruthyStr output.body <;>
    simp only [hE, hB, Bool.false_eq_true, if_false, if_true, List.nil_append] at hp <;>
    (try split at hp) <;> simp at hp
  all_goals first
    | (rcases hp with hp | hp <;> simp [hp])
    | simp [hp]

/-- With a truthy body, the kwargs mapping binds `content` to the body
truncated to 2000 characters. -/
theorem kwargsOf_content (output : Response) (hB : pyTruthyStr output.body = true) :
    lookupStr "content" (kwargsOf output) = some (pySlice output.body 2000) := by
  unfold kwargsOf
  rcases hE : lookupStr "embed" output.actions with _ | v
  · simp [hE, hB, lookupStr]
  · rcases hT : pyTruthyStr v <;> simp [hE, hB, hT, lookupStr]

/-- On a template with no block-start marker and no seed variables, the
modelled engine returns the template itself as the body, with no actions
and no referenced variables. -/
theorem engineProcess_noBrace (s : String) (h : ∀ c ∈ s.data, c ≠ lbrace) :
    engineProcess s [] = ⟨s, [], []⟩ := by
  unfold engineProcess
  rw [scan_noBrace s.data (s.length + 1) ⟨[], [], []⟩ h (Nat.le_succ s.data.length)]

/-- Claim C1: for every string input, `process_tagscript(content,
seed_variables)` is total and always returns a mapping whose only possible
keys are `content` and `embed`; there is no error branch for any template
text. -/
theorem process_tagscript_total_mapping (content : String) (seed : List (String × Adapter)) :
    ∀ p ∈ process_tagscript content seed, p.1 = "content" ∨ p.1 = "embed" := by
  intro p hp
  exact kwargsOf_keys (engineProcess content seed) p hp

theorem process_tagscript_total_mapping_witness :
    ("content", "hi") ∈ process_tagscript "hi" [] ∧
      (("content", "hi").1 = "content" ∨ ("content", "hi").1 = "embed") :=
  ⟨by decide, process_tagscript_total_mapping "hi" [] ("content", "hi") (by decide)⟩

/-- Claim C2: whenever the processed output has a truthy body,
`process_tagscript` binds `content` to exactly the first 2000 characters
of the body (so the bound content has at most 2000 characters and equals
the whole body when the body is short enough), `tag_run` computes the same
truncation, and the engine itself does not truncate the body (a 2001
character template yields a 2001 character body). -/
theorem caller_truncates_body_to_2000 :
    (∀ output : Response, pyTruthyStr output.body = true →
      lookupStr "content" (kwargsOf output) = some (pySlice output.body 2000) ∧
      tagRunContent output = some (pySlice output.body 2000) ∧
      (pySlice output.body 2000).length ≤ 2000 ∧
      (output.body.length ≤ 2000 → pySlice output.body 2000 = output.body)) ∧
    2000 < (engineProcess (String.mk (List.replicate 2001 'a')) []).body.length := by
  constructor
  · intro output hB
    refine ⟨kwargsOf_content output hB, ?_, ?_, ?_⟩
    · simp [tagRunContent, hB]
    · simp [pySlice, string_length_mk]
    · intro h
      have hd : output.body.data.length ≤ 2000 := h
      simp [pySlice, List.take_of_length_le hd, string_mk_data]
  · rw [engineProcess_noBrace (String.mk (List.replicate 2001 'a'))
      (fun c hc => by
        have hc' : c ∈ List.replicate 2001 'a' := hc
        rw [List.eq_of_mem_replicate hc']
        decide)]
    show 2000 < (List.replicate 2001 'a').length
    rw [List.length_replicate]
    decide

theorem caller_truncates_body_to_2000_witness :
    lookupStr "content" (kwargsOf ⟨"hi", [], []⟩) = some (pySlice "hi" 2000) :=
  (caller_truncates_body_to_2000.1 ⟨"hi", [], []⟩ (by decide)).1

/-- Claim C3: a processing outcome with an empty (falsy) body and no
`embed` action makes `process_tagscript` return the empty mapping — a
valid result with neither key present, and no error. -/
theorem process_tagscript_empty_result (content : String) (seed : List (String × Adapter))
    (hbody : (engineProcess content seed).body = "")
    (hembed : lookupStr "embed" (engineProcess content seed).actions = none) :
    process_tagscript content seed = [] := by
  unfold process_tagscript kwargsOf
  simp [hbody, hembed, pyTruthyStr]

theorem process_tagscript_empty_result_witness :
    process_tagscript "" [] = [] :=
  process_tagscript_empty_result "" [] (by decide) (by decide)

/-- Claim C4: the caller-imposed template source length limit is 10000
characters, and `TagCharacterLimitReached(limit, length)` carries a
message embedding the humanized limit and the humanized actual length in
the documented form. -/
theorem tagscript_limit_and_message :
    TAGSCRIPT_LIMIT = 10000 ∧
    (∀ limit length : Nat, TagCharacterLimitReached_message limit length =
      "TagScript cannot be longer than " ++ humanize_number limit ++
        " (**" ++ humanize_number length ++ "**).") ∧
    TagCharacterLimitReached_message TAGSCRIPT_LIMIT 10001 =
      "TagScript cannot be longer than 10,000 (**10,001**)." :=
  ⟨rfl, fun _ _ => rfl, by decide⟩

/-- Claim C5: `TagscriptConverter.convert` returns the argument unchanged
when the validation raises no `TagError`, and raises
`commands.BadArgument` carrying `str(e)` when the validation raises the
`TagError` `e`; validation failure never surfaces as a processed result. -/
theorem tagscript_converter_contract (validation : String → Option TagErr) (argument : String) :
    (validation argument = none →
      TagscriptConverter_convert validation argument = .ok argument) ∧
    (∀ e, validation argument = some e →
      TagscriptConverter_convert validation argument = .badArgument e.msg) := by
  constructor
  · intro h
    simp [TagscriptConverter_convert, h]
  · intro e h
    simp [TagscriptConverter_convert, h]

theorem tagscript_converter_contract_witness :
    TagscriptConverter_convert validate_tagscript "hi" = .ok "hi" ∧
    TagscriptConverter_convert (fun _ => some ⟨"boom"⟩) "hi" = .badArgument "boom" :=
  ⟨(tagscript_converter_contract validate_tagscript "hi").1 (by decide),
    (tagscript_converter_contract (fun _ => some ⟨"boom"⟩) "hi").2 ⟨"boom"⟩ rfl⟩

/-- Claim C6: for every string with no block-start marker, processing with
an empty seed-variable mapping returns a response whose body is the string
itself — pure literal passthrough. -/
theorem literal_passthrough (s : String) (h : ∀ c ∈ s.data, c ≠ lbrace) :
    (engineProcess s []).body = s := by
  rw [engineProcess_noBrace s h]

theorem literal_passthrough_witness :
    (engineProcess "abc def" []).body = "abc def" :=
  literal_passthrough "abc def" (by decide)

/-- Claim C7: the caller-side wait in the text-question branch of the
applications DM flow uses a 300-second timeout, and when the timeout fires
the handler returns with the "Application timed out." follow-up leaving
the collected answers unchanged. -/
theorem text_question_timeout_behavior (q : String) (answers : List AnswerModel) :
    textQuestionStep q answers .timedOut =
      (answers, .terminate "Application timed out.") ∧
    text_question_timeout_seconds = 300 :=
  ⟨rfl, rfl⟩

/-- Claim C8: with at least one attachment, the backup-file precondition of
`tag_restore` and `tag_global_restore` never raises
`UserFeedbackCheckFailure`, whatever the first attachment's filename: the
short-circuited conjunction is false and the restore proceeds. -/
theorem restore_check_never_raises (filenames : List String) (expected : String)
    (h : filenames ≠ []) :
    restoreAttachmentCheck filenames expected = .proceed := by
  cases filenames with
  | nil => exact absurd rfl h
  | cons f rest => simp [restoreAttachmentCheck]

theorem restore_check_never_raises_witness :
    restoreAttachmentCheck ["wrong-name.json"] "tag-backup-1.json" = .proceed :=
  restore_check_never_raises ["wrong-name.json"] "tag-backup-1.json" (by decide)

/-- Claim C9: after `response = response or True` in `invoketag` the
effective response flag is the Python object `True` for every caller-passed
value (`None`, `False` or `True`), so the `BadArgument` error message is
always sent and passing `False` can never suppress it. -/
theorem invoketag_response_always_true (response : PyVal) :
    invoketag_effective_response response = .pybool true ∧
    invoketag_sends_bad_argument response = true := by
  cases response with
  | pynone => exact ⟨rfl, rfl⟩
  | pybool b => cases b <;> exact ⟨rfl, rfl⟩

/-- The tag-list loop is a map over the input tags: the alias list is the
concatenation of every tag's aliases in input order and each description
entry is that tag's entry. -/
theorem generateTagListAux_spec (escape : String → String) (tags : List TagModel) :
    ∀ al de, generateTagListAux escape tags al de =
      (al ++ (tags.map (fun t => t.aliases)).flatten,
        de ++ tags.map (tagListEntry escape)) := by
  induction tags with
  | nil =>
    intro al de
    simp [generateTagListAux]
  | cons t rest ih =>
    intro al de
    simp [generateTagListAux, ih]

/-- Claim C10: the alias list returned by `generate_tag_list` is the
concatenation of every tag's aliases in input order, and each description
entry is built from the newline-replaced tagscript, truncated to its first
20 characters followed by an ellipsis exactly when the newline-replaced
text is longer than 23 characters, with markdown escaping applied after
this truncation. -/
theorem generate_tag_list_spec (escape : String → String) (tags : List TagModel) :
    (generate_tag_list escape tags).1 = (tags.map (fun t => t.aliases)).flatten ∧
    (generate_tag_list escape tags).2 = tags.map (fun t =>
      "`" ++ t.display ++ "` - " ++
        escape (if (newlineToSpace t.tagscript).length > 23
          then pySlice (newlineToSpace t.tagscript) 20 ++ "..."
          else newlineToSpace t.tagscript)) := by
  unfold generate_tag_list
  rw [generateTagListAux_spec escape tags [] []]
  exact ⟨by simp, by simp [tagListEntry]⟩
